import Mathlib

/-!
Formal model of `appointment_checker.py`.

The development embeds the three pieces of the script that the claims are
about: the availability parser `parse_available_dates` (including the
BeautifulSoup traversal primitives it relies on), the mail notifier
`send_email_notification`, and the polling loop `monitor_appointments`.
HTML documents are modelled at the level of the parsed DOM (a forest of
element and text nodes), since the script hands the raw markup straight to
BeautifulSoup and only ever works on the resulting tree.
-/

/-- A Gregorian calendar date, as CPython's `datetime.date`
(years 1 through 9999). -/
structure PyDate where
  year : Nat
  month : Nat
  day : Nat
deriving DecidableEq, Repr

/-- Python's strict `<` on `datetime.date`: chronological order, i.e.
lexicographic on (year, month, day). -/
def PyDate.lt (a b : PyDate) : Bool :=
  decide (a.year < b.year ∨ (a.year = b.year ∧
    (a.month < b.month ∨ (a.month = b.month ∧ a.day < b.day))))

/-- Python's `str.strip()` restricted to ASCII whitespace: drop leading and
trailing whitespace characters. -/
def pyStrip (s : String) : String :=
  String.mk (((s.data.dropWhile Char.isWhitespace).reverse.dropWhile
    Char.isWhitespace).reverse)

/-- Boolean prefix test on character lists. -/
def listStartsWith : List Char → List Char → Bool
  | [], _ => true
  | _ :: _, [] => false
  | a :: as, b :: bs => a == b && listStartsWith as bs

/-- Helper for `strContains`: does `sub` occur as a contiguous run in `l`. -/
def listContainsSub (sub : List Char) : List Char → Bool
  | [] => listStartsWith sub []
  | c :: tl => listStartsWith sub (c :: tl) || listContainsSub sub tl

/-- Python's substring test `sub in s`. -/
def strContains (s sub : String) : Bool :=
  listContainsSub sub.data s.data

/-- Gregorian leap-year test, as `calendar`/`datetime`. -/
def isLeapYear (y : Nat) : Bool :=
  (y % 4 == 0 && y % 100 != 0) || y % 400 == 0

/-- Number of days in a month, as `datetime.date` validation uses. -/
def daysInMonth (y m : Nat) : Nat :=
  if m == 2 then (if isLeapYear y then 29 else 28)
  else if m == 4 || m == 6 || m == 9 || m == 11 then 30
  else 31

/-- Validity check performed by the `datetime.date` constructor: year in
1..9999, month in 1..12, day in 1..days-of-month.  `strptime` raises
`ValueError` (and `parse_available_dates` skips the heading) when it fails. -/
def validDate (y m d : Nat) : Bool :=
  decide (1 ≤ y) && decide (y ≤ 9999) && decide (1 ≤ m) && decide (m ≤ 12) &&
    decide (1 ≤ d) && decide (d ≤ daysInMonth y m)

/-- Full English weekday names (lowercase), the `%A` alternatives of
CPython `_strptime` in the C locale. -/
def weekdayNames : List String :=
  ["monday", "tuesday", "wednesday", "thursday", "friday", "saturday",
   "sunday"]

/-- Full English month names (lowercase), the `%B` alternatives of
CPython `_strptime` in the C locale. -/
def monthNames : List String :=
  ["january", "february", "march", "april", "may", "june", "july",
   "august", "september", "october", "november", "december"]

/-- Case-insensitive match of a fixed lowercase word against the front of
the input; returns the remaining input on success. -/
def matchNameCI : List Char → List Char → Option (List Char)
  | [], l => some l
  | _ :: _, [] => none
  | c :: cs, x :: xs => if x.toLower == c then matchNameCI cs xs else none

/-- Try each name in turn (the names are mutually prefix-free, so order is
immaterial), returning the 0-based index of the matched name and the rest
of the input. -/
def matchAltFrom (names : List String) (i : Nat) (l : List Char) :
    Option (Nat × List Char) :=
  match names with
  | [] => none
  | nm :: rest =>
    match matchNameCI nm.data l with
    | some l2 => some (i, l2)
    | none => matchAltFrom rest (i + 1) l

/-- One-or-more whitespace characters, the translation of literal
whitespace in a `strptime` format string. -/
def skipWs1 : List Char → Option (List Char)
  | [] => none
  | c :: cs =>
    if c.isWhitespace then some (cs.dropWhile Char.isWhitespace) else none

/-- Numeric value of a decimal digit character. -/
def digitVal (c : Char) : Nat := c.toNat - 48

/-- The `%d,` portion of the format: CPython's day regex
`(3[01]|[12]\d|0[1-9]|[1-9])` followed by a literal comma, including the
regex backtracking from the two-digit to the one-digit alternative. -/
def parseDayComma : List Char → Option (Nat × List Char)
  | d1 :: d2 :: rest =>
    if d1.isDigit && d2.isDigit then
      let v := 10 * digitVal d1 + digitVal d2
      if decide (1 ≤ v) && decide (v ≤ 31) then
        match rest with
        | ',' :: rest2 => some (v, rest2)
        | _ => none
      else none
    else if d1.isDigit && decide (1 ≤ digitVal d1) && d2 == ',' then
      some (digitVal d1, rest)
    else none
  | _ => none

/-- The `%Y` portion at the end of the format: exactly four digits, and
`strptime` then requires the input to be exhausted ("unconverted data
remains" otherwise). -/
def parseYearEnd : List Char → Option Nat
  | [a, b, c, d] =>
    if a.isDigit && b.isDigit && c.isDigit && d.isDigit then
      some (1000 * digitVal a + 100 * digitVal b + 10 * digitVal c +
        digitVal d)
    else none
  | _ => none

/-- CPython `datetime.strptime(text, "%A %B %d, %Y").date()`: full weekday
name, whitespace, full month name, whitespace, day, comma, whitespace,
four-digit year, end of input; names matched case-insensitively.  The
parsed weekday is matched but plays no part in the resulting date, exactly
as in `_strptime`.  Returns `none` where Python raises `ValueError`
(pattern mismatch or invalid calendar date). -/
def strptimeHeading (s : String) : Option PyDate :=
  match matchAltFrom weekdayNames 0 s.data with
  | none => none
  | some (_, l1) =>
    match skipWs1 l1 with
    | none => none
    | some l2 =>
      match matchAltFrom monthNames 0 l2 with
      | none => none
      | some (mIdx, l3) =>
        match skipWs1 l3 with
        | none => none
        | some l4 =>
          match parseDayComma l4 with
          | none => none
          | some (day, l5) =>
            match skipWs1 l5 with
            | none => none
            | some l6 =>
              match parseYearEnd l6 with
              | none => none
              | some year =>
                if validDate year (mIdx + 1) day then
                  some ⟨year, mIdx + 1, day⟩
                else none

/-- Day of the week of a Gregorian date by Sakamoto's method, 0 = Sunday,
1 = Monday, ..., 6 = Saturday.  Used only to state that the script never
cross-checks the weekday word of a heading against the date it parses. -/
def dayOfWeekSakamoto (dt : PyDate) : Nat :=
  let t := [0, 3, 2, 5, 0, 3, 5, 1, 4, 6, 2, 4]
  let y := if dt.month < 3 then dt.year - 1 else dt.year
  (y + y / 4 - y / 100 + y / 400 + t.getD ((dt.month - 1) % 12) 0 + dt.day)
    % 7

/-- A parsed DOM forest, the shape BeautifulSoup hands back: a sequence of
sibling nodes, each either a text node or an element with a tag name and a
child forest. -/
inductive DomForest where
  | nil : DomForest
  | text (s : String) (rest : DomForest) : DomForest
  | elem (tag : String) (children : DomForest) (rest : DomForest) : DomForest
deriving Repr

/-- Concatenation of two forests at the top level. -/
def appendF : DomForest → DomForest → DomForest
  | DomForest.nil, g => g
  | DomForest.text s r, g => DomForest.text s (appendF r g)
  | DomForest.elem t c r, g => DomForest.elem t c (appendF r g)

/-- BeautifulSoup `get_text(strip=True)` over a forest: every descendant
string in document order, each stripped, concatenated. -/
def getTextF : DomForest → String
  | DomForest.nil => ""
  | DomForest.text s r => pyStrip s ++ getTextF r
  | DomForest.elem _ c r => getTextF c ++ getTextF r

/-- First `NavigableString` in the document-order (preorder) traversal of
a forest: the search order of BeautifulSoup's `next_element` chain, which
descends into an element's children before moving past it. -/
def firstTextF : DomForest → Option String
  | DomForest.nil => none
  | DomForest.text s _ => some s
  | DomForest.elem _ c r =>
    match firstTextF c with
    | some s => some s
    | none => firstTextF r

/-- The tag names `parse_available_dates` scans for:
`soup.find_all(["h2", "h3", "h4"])`. -/
def headingTags : List String := ["h2", "h3", "h4"]

/-- One iteration of the heading loop of `parse_available_dates`, for an
element with tag `tag` and children `children` whose `next_element` chain
(document order after the element's start) is the preorder of `children`
followed by `next`:
text extraction, the `"202" in text` guard, `strptime` with silent skip on
`ValueError`, the cutoff test `date_obj > cutoff`, then
`heading.find_next(string=True)` — whose search begins with the heading's
own descendant strings — stripped, the emptiness guard, and the
"No more available time slots" guard. -/
def headingRecordF (cutoff : PyDate) (tag : String) (children next : DomForest) :
    Option (PyDate × String) :=
  if headingTags.contains tag then
    let text := getTextF children
    if strContains text "202" then
      match strptimeHeading text with
      | none => none
      | some d =>
        if PyDate.lt cutoff d then none
        else
          match firstTextF (appendF children next) with
          | none => none
          | some s =>
            let st := pyStrip s
            if st = "" then none
            else if strContains st "No more available time slots" then none
            else some (d, st)
    else none
  else none

/-- The heading scan of `parse_available_dates` over a forest `f` whose
following document content (at enclosing levels) is `k`: `find_all` visits
every element in document order, and each heading contributes via
`headingRecordF`; results are accumulated in document order. -/
def parseF (cutoff : PyDate) : DomForest → DomForest → List (PyDate × String)
  | DomForest.nil, _ => []
  | DomForest.text _ r, k => parseF cutoff r k
  | DomForest.elem t c r, k =>
    (headingRecordF cutoff t c (appendF r k)).toList ++
      parseF cutoff c (appendF r k) ++ parseF cutoff r k

/-- `parse_available_dates(html, cutoff)` on the parsed DOM of the markup:
the list of (date, status text) pairs the script judges available, in
document order.  In the source the status component has type
`Optional[str]`, but the emitted pairs always carry a non-empty string
(`None`/empty statuses are skipped), so the model uses `String`. -/
def parse_available_dates (doc : DomForest) (cutoff : PyDate) :
    List (PyDate × String) :=
  parseF cutoff doc DomForest.nil

/-- Python `int(s)` on a decimal string: optional surrounding whitespace,
optional sign, one or more digits.  `none` models the `ValueError` raise. -/
def pyIntParse (s : String) : Option Int :=
  let digitsToNat : List Char → Option Nat := fun ds =>
    if ds ≠ [] && ds.all Char.isDigit then
      some (ds.foldl (fun acc c => 10 * acc + digitVal c) 0)
    else none
  match (pyStrip s).data with
  | '+' :: ds => (digitsToNat ds).map Int.ofNat
  | '-' :: ds => (digitsToNat ds).map (fun n => -(n : Int))
  | ds => (digitsToNat ds).map Int.ofNat

/-- Observable outcome of one call to `send_email_notification`. -/
inductive NotifyResult where
  | raised (msg : String) : NotifyResult
  | warnedMissing (keys : List String) : NotifyResult
  | sent : NotifyResult
  | sendFailed (msg : String) : NotifyResult
deriving DecidableEq, Repr

/-- Python truthiness of an optional environment value: `None` and the
empty string are falsy (`if not v`). -/
def envFalsy : Option String → Bool
  | none => true
  | some s => s == ""

/-- The string `int()` is applied to for the relay port:
`os.environ.get("APPT_MAIL_SMTP_PORT", "587")`. -/
def portEnvValue (env : String → Option String) : String :=
  (env "APPT_MAIL_SMTP_PORT").getD "587"

/-- The `missing` list of `send_email_notification`: the required keys, in
source order, whose environment values are falsy. -/
def missingKeys (env : String → Option String) : List String :=
  (([("APPT_MAIL_SENDER", env "APPT_MAIL_SENDER"),
     ("APPT_MAIL_RECIPIENT", env "APPT_MAIL_RECIPIENT"),
     ("APPT_MAIL_SMTP_SERVER", env "APPT_MAIL_SMTP_SERVER"),
     ("APPT_MAIL_SMTP_PASSWORD", env "APPT_MAIL_SMTP_PASSWORD")].filter
    (fun kv => envFalsy kv.2)).map (fun kv => kv.1))

/-- `send_email_notification`, with the process environment as a lookup
function and the outcome of the SMTP relay session (the body of the `try`
block: connect, STARTTLS, login, send) as an explicit parameter.  The
`int(...)` conversion of the port happens before the missing-configuration
check and outside the `try`/`except`, so a non-numeric port value raises
out of the function; a missing required value returns early with a warning
naming the missing keys; a relay failure is caught and logged. -/
def send_email_notification (env : String → Option String)
    (relay : Except String Unit) : NotifyResult :=
  match pyIntParse (portEnvValue env) with
  | none => NotifyResult.raised "ValueError"
  | some _ =>
    let missing := missingKeys env
    if missing.isEmpty then
      match relay with
      | Except.ok _ => NotifyResult.sent
      | Except.error e => NotifyResult.sendFailed e
    else NotifyResult.warnedMissing missing

/-- Observable outcome of one cycle of the `while True` loop of
`monitor_appointments`. -/
inductive CycleOutcome where
  | errorLogged (timestamp msg : String) : CycleOutcome
  | noneAvailable (timestamp : String) : CycleOutcome
  | notified (timestamp : String) (records : List (PyDate × String))
      (mail : NotifyResult) : CycleOutcome
deriving DecidableEq, Repr

/-- One cycle body: fetch (its failure modelled as `Except.error`), parse,
notify when non-empty, with the surrounding `try`/`except Exception` that
converts any in-cycle failure — a fetch failure, or a `ValueError` escaping
the notifier — into an error log line carrying the timestamp and the
failure's description. -/
def runCycle (cutoff : PyDate) (env : String → Option String)
    (fetched : Except String DomForest) (relay : Except String Unit)
    (now : String) : CycleOutcome :=
  match fetched with
  | Except.error e => CycleOutcome.errorLogged now e
  | Except.ok doc =>
    let av := parse_available_dates doc cutoff
    if av.isEmpty then CycleOutcome.noneAvailable now
    else
      match send_email_notification env relay with
      | NotifyResult.raised m => CycleOutcome.errorLogged now m
      | r => CycleOutcome.notified now av r

/-- The polling loop of `monitor_appointments` as the trace of cycle
outcomes: cycle `n` fetches `fetches n` at wall-clock time `times n` with
relay-session outcome `relays n`.  The trace is total — the loop has no
exit and every cycle, failed or not, is followed by `time.sleep` and the
next cycle. -/
def monitor_appointments (cutoff : PyDate) (env : String → Option String)
    (fetches : Nat → Except String DomForest)
    (relays : Nat → Except String Unit) (times : Nat → String) :
    Nat → CycleOutcome :=
  fun n => runCycle cutoff env (fetches n) (relays n) (times n)

/-! Concrete inputs used by the claim theorems: small parsed documents and
environments, written out as the DOM shapes of the markup the spec's
scenarios describe. -/

/-- Markup of spec Scenario A: heading "Wednesday August 27, 2025"
followed by the text "10:00–12:00, 14:00–16:00". -/
def scenarioA : DomForest :=
  DomForest.elem "h3" (DomForest.text "Wednesday August 27, 2025" DomForest.nil)
    (DomForest.elem "div" (DomForest.text "10:00–12:00, 14:00–16:00" DomForest.nil)
      DomForest.nil)

/-- Markup of spec Scenario B: the same heading followed by the text
"No more available time slots for this date.". -/
def scenarioB : DomForest :=
  DomForest.elem "h3" (DomForest.text "Wednesday August 27, 2025" DomForest.nil)
    (DomForest.elem "div"
      (DomForest.text "No more available time slots for this date." DomForest.nil)
      DomForest.nil)

/-- A heading whose date equals the cutoff used with it. -/
def scenarioEqCutoff : DomForest :=
  DomForest.elem "h3" (DomForest.text "Tuesday September 30, 2025" DomForest.nil)
    DomForest.nil

/-- A heading whose year is 1202: no year token of the current decade, yet
the text contains the substring "202". -/
def scenario1202 : DomForest :=
  DomForest.elem "h3" (DomForest.text "Wednesday August 27, 1202" DomForest.nil)
    DomForest.nil

/-- Markup of spec Scenario C: the abbreviated heading "Mon Aug 25, 2025". -/
def scenarioC : DomForest :=
  DomForest.elem "h3" (DomForest.text "Mon Aug 25, 2025" DomForest.nil)
    DomForest.nil

/-- A heading carrying the wrong weekday word: 2025-08-27 is a Wednesday. -/
def scenarioWrongWeekday : DomForest :=
  DomForest.elem "h3" (DomForest.text "Monday August 27, 2025" DomForest.nil)
    DomForest.nil

/-- Environment of spec Scenario F: sender, recipient and relay host set,
password absent, port left to its default. -/
def envScenarioF : String → Option String := fun k =>
  if k == "APPT_MAIL_SENDER" then some "sender@example.com"
  else if k == "APPT_MAIL_RECIPIENT" then some "recipient@example.com"
  else if k == "APPT_MAIL_SMTP_SERVER" then some "smtp.example.com"
  else none

/-- Environment with every mail variable set but a non-numeric port. -/
def envBadPort : String → Option String := fun k =>
  if k == "APPT_MAIL_SMTP_PORT" then some "not-a-number" else some "set"

/-- Environment with every mail variable set and a numeric port. -/
def envAllSet : String → Option String := fun k =>
  if k == "APPT_MAIL_SMTP_PORT" then some "587" else some "set"

/-- Environment with the password absent and a non-numeric port. -/
def envMissingPwBadPort : String → Option String := fun k =>
  if k == "APPT_MAIL_SMTP_PASSWORD" then none
  else if k == "APPT_MAIL_SMTP_PORT" then some "8o8" else some "set"

/-- A fetch stream that fails every cycle with a transport error. -/
def fetchFail : Nat → Except String DomForest :=
  fun _ => Except.error "HTTP 503 Server Error"

/-! Shared structural lemmas about the parser. -/

/-- Any record produced by one heading step has a date on or before the
cutoff. -/
theorem headingRecordF_some_le {cutoff : PyDate} {t : String}
    {c nx : DomForest} {p : PyDate × String}
    (h : headingRecordF cutoff t c nx = some p) :
    PyDate.lt cutoff p.1 = false := by
  unfold headingRecordF at h
  repeat split at h <;> simp_all
  obtain ⟨h1, h2, h3, h4, h5⟩ := h
  subst h5
  exact h2

/-- Any record produced by the heading scan has a date on or before the
cutoff. -/
theorem parseF_le (cutoff : PyDate) (f : DomForest) :
    ∀ (k : DomForest) (r : PyDate × String), r ∈ parseF cutoff f k →
      PyDate.lt cutoff r.1 = false := by
  induction f with
  | nil => intro k r hr; simp [parseF] at hr
  | text s rest ih => intro k r hr; exact ih k r hr
  | elem t c rest ihc ihr =>
    intro k r hr
    simp only [parseF, List.mem_append] at hr
    rcases hr with (hr | hr) | hr
    · cases hop : headingRecordF cutoff t c (appendF rest k) with
      | none => rw [hop] at hr; simp at hr
      | some p =>
        rw [hop] at hr
        simp at hr
        subst hr
        exact headingRecordF_some_le hop
    · exact ihc (appendF rest k) r hr
    · exact ihr k r hr

/-! Claim theorems. -/

/-- C1.  The claim says the status text of the emitted record is the text
following the heading, so on Scenario A's markup (cutoff 2025-08-28) the
record should be (2025-08-27, "10:00–12:00, 14:00–16:00").  The code
instead captures the heading's own text: `Tag.find_next(string=True)`
searches the `next_element` chain, which begins with the heading's own
descendant strings, so the emitted record is
(2025-08-27, "Wednesday August 27, 2025"). -/
theorem c1_scenarioA_status_is_heading_own_text :
    parse_available_dates scenarioA ⟨2025, 8, 28⟩ =
      [(⟨2025, 8, 27⟩, "Wednesday August 27, 2025")] ∧
    parse_available_dates scenarioA ⟨2025, 8, 28⟩ ≠
      [(⟨2025, 8, 27⟩, "10:00–12:00, 14:00–16:00")] := by
  constructor
  · decide
  · decide

/-- C2.  The claim says a heading whose status text contains
"No more available time slots" yields no record, so Scenario B's markup
yields zero records.  Because the string the code examines is the
heading's own text — which never contains that phrase — the fully-booked
guard never fires and the code emits one record, even though the text
following the heading does contain the phrase. -/
theorem c2_scenarioB_booked_date_still_emitted :
    parse_available_dates scenarioB ⟨2025, 8, 28⟩ =
      [(⟨2025, 8, 27⟩, "Wednesday August 27, 2025")] ∧
    strContains "No more available time slots for this date."
      "No more available time slots" = true := by
  constructor
  · decide
  · decide

/-- C3.  No emitted record ever has a date strictly after the cutoff, and
a date exactly equal to the cutoff is eligible: a document exists whose
emitted record's date equals the cutoff. -/
theorem c3_cutoff_is_inclusive_upper_bound :
    (∀ (doc : DomForest) (cutoff : PyDate) (r : PyDate × String),
        r ∈ parse_available_dates doc cutoff → PyDate.lt cutoff r.1 = false) ∧
    (∃ (doc : DomForest) (cutoff : PyDate) (r : PyDate × String),
        r ∈ parse_available_dates doc cutoff ∧ r.1 = cutoff) := by
  constructor
  · intro doc cutoff r hr
    exact parseF_le cutoff doc DomForest.nil r hr
  · exact ⟨scenarioEqCutoff, ⟨2025, 9, 30⟩,
      (⟨2025, 9, 30⟩, "Tuesday September 30, 2025"), by decide, rfl⟩

/-- Witness for C3 at a concrete document and record. -/
theorem c3_cutoff_is_inclusive_upper_bound_witness :
    PyDate.lt ⟨2025, 9, 30⟩
      (Prod.fst ((⟨2025, 9, 30⟩, "Tuesday September 30, 2025") :
        PyDate × String)) = false :=
  c3_cutoff_is_inclusive_upper_bound.1 scenarioEqCutoff ⟨2025, 9, 30⟩
    (⟨2025, 9, 30⟩, "Tuesday September 30, 2025") (by decide)

/-- C4 counterexample.  The claim's own example fails: a heading whose
year is 1202 contains no 4-digit year token starting with "202", yet the
code's guard is a bare substring test (`"202" in text`), "1202" contains
"202", `strptime` accepts year 1202, and a record is emitted. -/
theorem c4_counterexample_year_1202_emits_record :
    parse_available_dates scenario1202 ⟨2025, 8, 28⟩ =
      [(⟨1202, 8, 27⟩, "Wednesday August 27, 1202")] ∧
    parse_available_dates scenario1202 ⟨2025, 8, 28⟩ ≠ [] := by
  constructor
  · decide
  · decide

/-- C4 (amended).  For every heading whose text does not contain the
substring "202", the parser emits no record for that heading. -/
theorem c4_amended_no_202_substring_skipped :
    ∀ (cutoff : PyDate) (t : String) (c nx : DomForest),
      strContains (getTextF c) "202" = false →
      headingRecordF cutoff t c nx = none := by
  intro cutoff t c nx h
  unfold headingRecordF
  simp [h]

/-- Witness for the amended C4 at a concrete heading. -/
theorem c4_amended_witness :
    headingRecordF ⟨2026, 1, 1⟩ "h3"
      (DomForest.text "Saturday May 17, 1980" DomForest.nil)
      DomForest.nil = none :=
  c4_amended_no_202_substring_skipped ⟨2026, 1, 1⟩ "h3"
    (DomForest.text "Saturday May 17, 1980" DomForest.nil)
    DomForest.nil (by decide)

/-- C5 counterexample.  `send_email_notification` can raise: the
`int(os.environ.get("APPT_MAIL_SMTP_PORT", "587"))` conversion runs
outside the `try`/`except`, so a non-numeric port value raises a
`ValueError` that propagates to the caller. -/
theorem c5_counterexample_port_valueerror_escapes :
    ¬ (∀ (env : String → Option String) (relay : Except String Unit)
        (m : String),
        send_email_notification env relay ≠ NotifyResult.raised m) := by
  intro h
  exact h envBadPort (Except.ok ()) "ValueError" (by decide)

/-- C5 (amended).  Provided the configured relay port value parses as an
integer, `send_email_notification` never raises; in particular every relay
session failure is caught inside it and reported as a logged send
failure. -/
theorem c5_amended_relay_failures_absorbed :
    ∀ (env : String → Option String) (relay : Except String Unit),
      (pyIntParse (portEnvValue env)).isSome = true →
      (∀ m : String,
        send_email_notification env relay ≠ NotifyResult.raised m) ∧
      (∀ e : String, relay = Except.error e → missingKeys env = [] →
        send_email_notification env relay = NotifyResult.sendFailed e) := by
  intro env relay hp
  obtain ⟨v, hv⟩ := Option.isSome_iff_exists.mp hp
  constructor
  · intro m
    simp only [send_email_notification, hv]
    by_cases hm : (missingKeys env).isEmpty
    · simp only [hm, if_true]
      cases relay <;> simp
    · simp [hm]
  · intro e he hmk
    subst he
    simp [send_email_notification, hv, hmk]

/-- Witness for the amended C5: a failed relay session is absorbed. -/
theorem c5_amended_witness :
    send_email_notification envAllSet (Except.error "SMTPAuthenticationError") =
      NotifyResult.sendFailed "SMTPAuthenticationError" :=
  (c5_amended_relay_failures_absorbed envAllSet
    (Except.error "SMTPAuthenticationError") (by decide)).2
    "SMTPAuthenticationError" rfl (by decide)

/-- C6 counterexample.  With the password absent but the port value
non-numeric, the function raises before reaching the missing-configuration
check instead of warning about the missing password. -/
theorem c6_counterexample_bad_port_preempts_warning :
    ¬ (∀ (env : String → Option String) (relay : Except String Unit),
        missingKeys env ≠ [] →
        send_email_notification env relay =
          NotifyResult.warnedMissing (missingKeys env)) := by
  intro h
  exact absurd (h envMissingPwBadPort (Except.ok ()) (by decide)) (by decide)

/-- C6 (amended).  Provided the configured relay port value parses as an
integer, a missing required mail value makes the notifier return early
with a warning naming exactly the missing keys, for every possible relay
outcome (so no relay connection is consulted); in particular, in Scenario
F's environment the warning names exactly the password key. -/
theorem c6_amended_missing_config_warns_exactly :
    (∀ (env : String → Option String) (relay : Except String Unit),
        (pyIntParse (portEnvValue env)).isSome = true →
        missingKeys env ≠ [] →
        send_email_notification env relay =
          NotifyResult.warnedMissing (missingKeys env)) ∧
    (∀ relay : Except String Unit,
        send_email_notification envScenarioF relay =
          NotifyResult.warnedMissing ["APPT_MAIL_SMTP_PASSWORD"]) := by
  constructor
  · intro env relay hp hm
    obtain ⟨v, hv⟩ := Option.isSome_iff_exists.mp hp
    have hne : (missingKeys env).isEmpty = false := by
      cases hmk : missingKeys env with
      | nil => exact absurd hmk hm
      | cons a l => rfl
    simp [send_email_notification, hv, hne]
  · intro relay
    simp [send_email_notification,
      show pyIntParse (portEnvValue envScenarioF) = some 587 from by decide,
      show missingKeys envScenarioF = ["APPT_MAIL_SMTP_PASSWORD"] from by
        decide]

/-- Witness for the amended C6 at Scenario F's environment. -/
theorem c6_amended_witness :
    send_email_notification envScenarioF (Except.ok ()) =
      NotifyResult.warnedMissing (missingKeys envScenarioF) :=
  c6_amended_missing_config_warns_exactly.1 envScenarioF (Except.ok ())
    (by decide) (by decide)

/-- C7.  A fetch failure in cycle `n` is caught and becomes an error log
entry carrying that cycle's timestamp and the failure's description, and
the loop's trace stays total: every cycle, before or after the failure,
still produces its outcome from its own fetch, relay and clock inputs. -/
theorem c7_poll_loop_absorbs_cycle_failures :
    ∀ (cutoff : PyDate) (env : String → Option String)
      (fetches : Nat → Except String DomForest)
      (relays : Nat → Except String Unit) (times : Nat → String)
      (n : Nat) (e : String),
      fetches n = Except.error e →
      monitor_appointments cutoff env fetches relays times n =
        CycleOutcome.errorLogged (times n) e ∧
      (∀ m : Nat, monitor_appointments cutoff env fetches relays times m =
        runCycle cutoff env (fetches m) (relays m) (times m)) := by
  intro cutoff env fetches relays times n e he
  refine ⟨?_, fun m => rfl⟩
  simp [monitor_appointments, runCycle, he]

/-- Witness for C7: a permanently failing fetch stream. -/
theorem c7_poll_loop_witness :
    monitor_appointments ⟨2025, 8, 28⟩ envScenarioF fetchFail
      (fun _ => Except.ok ()) (fun _ => "2025-08-27 12:00:00") 0 =
      CycleOutcome.errorLogged "2025-08-27 12:00:00"
        "HTTP 503 Server Error" :=
  (c7_poll_loop_absorbs_cycle_failures ⟨2025, 8, 28⟩ envScenarioF fetchFail
    (fun _ => Except.ok ()) (fun _ => "2025-08-27 12:00:00") 0
    "HTTP 503 Server Error" rfl).1

/-- C8.  The parser enforces no lower bound on dates: whenever a heading
qualifies (heading tag, text containing "202", text parsing as a date on
or before the cutoff, a first following string in document order that is
non-empty after stripping and free of the booked phrase), a record is
emitted — the date is compared only against the cutoff, never against the
invocation day, which the parser does not even receive. -/
theorem c8_no_lower_bound_on_dates :
    ∀ (cutoff d : PyDate) (t s : String) (c nx : DomForest),
      headingTags.contains t = true →
      strContains (getTextF c) "202" = true →
      strptimeHeading (getTextF c) = some d →
      PyDate.lt cutoff d = false →
      firstTextF (appendF c nx) = some s →
      pyStrip s ≠ "" →
      strContains (pyStrip s) "No more available time slots" = false →
      headingRecordF cutoff t c nx = some (d, pyStrip s) := by
  intro cutoff d t s c nx h1 h2 h3 h4 h5 h6 h7
  have h1m : t ∈ headingTags := by simpa using h1
  simp [headingRecordF, h1m, h2, h3, h4, h5, h6, h7]

/-- Witness for C8 at a date years before the cutoff. -/
theorem c8_no_lower_bound_witness :
    headingRecordF ⟨2025, 12, 31⟩ "h4"
      (DomForest.text "Friday August 27, 2021" DomForest.nil)
      (DomForest.text "09:30 free" DomForest.nil) =
      some (⟨2021, 8, 27⟩, pyStrip "Friday August 27, 2021") :=
  c8_no_lower_bound_on_dates ⟨2025, 12, 31⟩ ⟨2021, 8, 27⟩ "h4"
    "Friday August 27, 2021"
    (DomForest.text "Friday August 27, 2021" DomForest.nil)
    (DomForest.text "09:30 free" DomForest.nil)
    (by decide) (by decide) (by decide) (by decide) (by decide) (by decide)
    (by decide)

/-- C9.  A heading containing "202" whose text does not match
"<full weekday name> <full month name> <day>, <year>" is skipped silently:
the abbreviated heading "Mon Aug 25, 2025" fails the pattern, Scenario C's
document yields zero records, and in general a heading whose text the
date pattern rejects contributes no record (the model is a total function,
mirroring the `except ValueError: continue` that swallows the only
failure the pattern match can raise). -/
theorem c9_nonconforming_heading_skipped_silently :
    strptimeHeading "Mon Aug 25, 2025" = none ∧
    strContains "Mon Aug 25, 2025" "202" = true ∧
    parse_available_dates scenarioC ⟨2025, 8, 28⟩ = [] ∧
    (∀ (cutoff : PyDate) (t : String) (c nx : DomForest),
      strptimeHeading (getTextF c) = none →
      headingRecordF cutoff t c nx = none) := by
  refine ⟨by decide, by decide, by decide, ?_⟩
  intro cutoff t c nx h
  simp [headingRecordF, h]

/-- Witness for C9's general part at a concrete non-conforming heading. -/
theorem c9_nonconforming_witness :
    headingRecordF ⟨2025, 8, 28⟩ "h2"
      (DomForest.text "Tue Sep 2, 2025" DomForest.nil) DomForest.nil =
      none :=
  c9_nonconforming_heading_skipped_silently.2.2.2 ⟨2025, 8, 28⟩ "h2"
    (DomForest.text "Tue Sep 2, 2025" DomForest.nil) DomForest.nil
    (by decide)

/-- C10.  The weekday word of a heading is never checked against the date:
"Monday August 27, 2025" parses to 2025-08-27 even though that date is a
Wednesday (day-of-week index 3, Sunday = 0), the heading produces a
record, and replacing the weekday word by any of the seven names leaves
the parsed date unchanged. -/
theorem c10_weekday_never_validated :
    strptimeHeading "Monday August 27, 2025" = some ⟨2025, 8, 27⟩ ∧
    dayOfWeekSakamoto ⟨2025, 8, 27⟩ = 3 ∧
    parse_available_dates scenarioWrongWeekday ⟨2025, 8, 28⟩ =
      [(⟨2025, 8, 27⟩, "Monday August 27, 2025")] ∧
    (∀ wd : String, wd ∈ weekdayNames →
      strptimeHeading (wd ++ " August 27, 2025") = some ⟨2025, 8, 27⟩) := by
  refine ⟨by decide, by decide, by decide, ?_⟩
  intro wd hwd
  fin_cases hwd <;> decide

/-- Witness for C10's general part at a concrete weekday name. -/
theorem c10_weekday_witness :
    strptimeHeading ("thursday" ++ " August 27, 2025") =
      some ⟨2025, 8, 27⟩ :=
  c10_weekday_never_validated.2.2.2 "thursday" (by decide)
